import Mathlib

set_option linter.all false

/-!
Verification development for the metadata query CLI (src/prefect/cli/get.py).

The module builds GraphQL query requests as nested dictionaries, optionally
hands them to a playground collaborator, otherwise submits them to a remote
client and renders the response records as a plain table.

We embed the Python dictionaries as a `GQL` value tree, each command handler as
a pure function from its CLI options (and, in network mode, the list of
response records) to a list of observable actions, and the rendering loop as a
row-projection function parametrised by the external timestamp formatters.
-/

/-- A GraphQL argument / value tree, embedding the Python dictionaries built in
get.py.  `null` is Python `None`, `enum` is `EnumValue`, `obj` is a dict with
ordered string keys. -/
inductive GQL where
  | null : GQL
  | str : String → GQL
  | int : Int → GQL
  | bool : Bool → GQL
  | enum : String → GQL
  | obj : List (String × GQL) → GQL

/-- Embeds a Python optional string (`None` or `str`) as a GQL value. -/
def optStr : Option String → GQL
  | none => GQL.null
  | some s => GQL.str s

/-- Embeds a Python optional int (`None` or `int`) as a GQL value. -/
def optInt : Option Int → GQL
  | none => GQL.null
  | some n => GQL.int n

mutual

/-- Modelled from the spec: the argument serializer `with_args` /
`parse_graphql_arguments` from `prefect.utilities.graphql` is not part of the
sources under review; per the spec, an unset optional filter "is omitted from
the predicate tree rather than sent as a wildcard" and absent parameters "must
be entirely elided from the tree".  We model that serializer as the function
that drops every dictionary entry whose value is `None` or elides to an empty
dictionary, recursively. -/
def elide : GQL → GQL
  | GQL.obj fields => GQL.obj (elideFields fields)
  | g => g

/-- Entry-wise worker for `elide`: drops entries whose elided value is null or
an empty object, keeps everything else in order. -/
def elideFields : List (String × GQL) → List (String × GQL)
  | [] => []
  | (k, v) :: rest =>
    match elide v with
    | GQL.null => elideFields rest
    | GQL.obj [] => elideFields rest
    | v' => (k, v') :: elideFields rest

end

/-- Looks a key up in an ordered field list. -/
def lookupKey : List (String × GQL) → String → Option GQL
  | [], _ => none
  | (k, v) :: rest, key => if k = key then some v else lookupKey rest key

/-- Follows a chain of keys through nested objects. -/
def getPath : GQL → List String → Option GQL
  | g, [] => some g
  | GQL.obj fields, key :: rest =>
    match lookupKey fields key with
    | some v => getPath v rest
    | none => none
  | _, _ :: _ => none

mutual

/-- Returns true when `key` occurs as a dictionary key anywhere in the tree. -/
def hasKey : GQL → String → Bool
  | GQL.obj fields, key => hasKeyFields fields key
  | _, _ => false

/-- Worker for `hasKey` over a field list. -/
def hasKeyFields : List (String × GQL) → String → Bool
  | [], _ => false
  | (k, v) :: rest, key => k == key || hasKey v key || hasKeyFields rest key

end

/-- A selection-tree node of a query request: `leaf n` is the entry mapping
field `n` to `True`, `node n sub` maps field `n` to a nested selection
dictionary, and `withArgsSel` embeds a `with_args` field key inside a
selection dictionary. -/
inductive Sel where
  | leaf : String → Sel
  | node : String → List Sel → Sel
  | withArgsSel : String → GQL → List Sel → Sel

/-- A constructed query request: the `with_args(entity, arguments)` key of the
top-level query dictionary together with its selection tree.  `args` is the
argument dictionary after serialization (see `elide`). -/
structure QueryRequest where
  entity : String
  args : GQL
  selection : List Sel

/-- The `where` predicate tree of a request (`GQL.obj []` when the whole
`where` argument was elided). -/
def whereTree (q : QueryRequest) : GQL :=
  match getPath q.args ["where"] with
  | some w => w
  | none => GQL.obj []

/- ---------------------------------------------------------------------------
The flows command (get.py lines 48 to 119).
--------------------------------------------------------------------------- -/

/-- Default of the flows `--limit` option (`default=10` on line 52). -/
def flowsLimitDefault : Int := 10

/-- The `distinct_on` argument of flows: `EnumValue("name")`, overwritten to
`None` when `--all-versions` is set (lines 60 to 62). -/
def flowsDistinctOn (all_versions : Bool) : GQL :=
  if all_versions then GQL.null else GQL.enum "name"

/-- The raw `where` dictionary of the flows query (lines 69 to 75), before
serialization. -/
def flowsWhereRaw (name : Option String) (version : Option Int)
    (project : Option String) : GQL :=
  GQL.obj [("_and", GQL.obj
    [("name", GQL.obj [("_eq", optStr name)]),
     ("version", GQL.obj [("_eq", optInt version)]),
     ("project", GQL.obj [("name", GQL.obj [("_eq", optStr project)])])])]

/-- The raw argument dictionary of the flows query (lines 69 to 81). -/
def flowsArgsRaw (name : Option String) (version : Option Int)
    (project : Option String) (limit : Int) (all_versions : Bool) : GQL :=
  GQL.obj
    [("where", flowsWhereRaw name version project),
     ("order_by", GQL.obj [("name", GQL.enum "asc"), ("version", GQL.enum "desc")]),
     ("distinct_on", flowsDistinctOn all_versions),
     ("limit", GQL.int limit)]

/-- The selection tree of the flows query (lines 83 to 88). -/
def flowsSelection : List Sel :=
  [Sel.leaf "name", Sel.leaf "version", Sel.node "project" [Sel.leaf "name"],
   Sel.leaf "created"]

/-- The constructed flows query request (lines 64 to 90). -/
def flowsQuery (name : Option String) (version : Option Int)
    (project : Option String) (limit : Int) (all_versions : Bool) : QueryRequest :=
  { entity := "flow"
    args := elide (flowsArgsRaw name version project limit all_versions)
    selection := flowsSelection }

/- ---------------------------------------------------------------------------
The projects command (get.py lines 122 to 175).
--------------------------------------------------------------------------- -/

/-- The raw argument dictionary of the projects query (lines 133 to 136): a
`where` over the name filter and a fixed ascending order; note that no limit
argument is built. -/
def projectsArgsRaw (name : Option String) : GQL :=
  GQL.obj
    [("where", GQL.obj [("_and", GQL.obj [("name", GQL.obj [("_eq", optStr name)])])]),
     ("order_by", GQL.obj [("name", GQL.enum "asc")])]

/-- The selection tree of the projects query (lines 137 to 144), including the
aggregated distinct flow count. -/
def projectsSelection : List Sel :=
  [Sel.leaf "name", Sel.leaf "created", Sel.leaf "description",
   Sel.withArgsSel "flows_aggregate" (GQL.obj [("distinct_on", GQL.enum "name")])
     [Sel.node "aggregate" [Sel.leaf "count"]]]

/-- The constructed projects query request (lines 129 to 146). -/
def projectsQuery (name : Option String) : QueryRequest :=
  { entity := "project"
    args := elide (projectsArgsRaw name)
    selection := projectsSelection }

/- ---------------------------------------------------------------------------
The flow-runs command (get.py lines 178 to 261).
--------------------------------------------------------------------------- -/

/-- Default of the flow-runs `--limit` option (`default=10` on line 179). -/
def flowRunsLimitDefault : Int := 10

/-- The ordering of the flow-runs query (lines 190 and 204): start time
descending in started mode, creation time descending otherwise. -/
def flowRunsOrder (started : Bool) : GQL :=
  if started then GQL.obj [("start_time", GQL.enum "desc")]
  else GQL.obj [("created", GQL.enum "desc")]

/-- The raw `where` dictionary of the flow-runs query (lines 192 to 210): the
started mode adds a `start_time` non-null clause around the flow filter. -/
def flowRunsWhereRaw (flow project : Option String) (started : Bool) : GQL :=
  if started then
    GQL.obj [("_and", GQL.obj
      [("flow", GQL.obj [("_and", GQL.obj
         [("name", GQL.obj [("_eq", optStr flow)]),
          ("project", GQL.obj [("name", GQL.obj [("_eq", optStr project)])])])]),
       ("start_time", GQL.obj [("_is_null", GQL.bool false)])])]
  else
    GQL.obj [("flow", GQL.obj [("_and", GQL.obj
      [("name", GQL.obj [("_eq", optStr flow)]),
       ("project", GQL.obj [("name", GQL.obj [("_eq", optStr project)])])])])]

/-- The raw argument dictionary of the flow-runs query (line 215). -/
def flowRunsArgsRaw (limit : Int) (flow project : Option String)
    (started : Bool) : GQL :=
  GQL.obj
    [("where", flowRunsWhereRaw flow project started),
     ("limit", GQL.int limit),
     ("order_by", flowRunsOrder started)]

/-- The selection tree of the flow-runs query (lines 216 to 224). -/
def flowRunsSelection : List Sel :=
  [Sel.node "flow" [Sel.leaf "name"], Sel.leaf "created", Sel.leaf "state",
   Sel.leaf "name", Sel.leaf "duration", Sel.leaf "start_time"]

/-- The constructed flow-runs query request (lines 212 to 225). -/
def flowRunsQuery (limit : Int) (flow project : Option String)
    (started : Bool) : QueryRequest :=
  { entity := "flow_run"
    args := elide (flowRunsArgsRaw limit flow project started)
    selection := flowRunsSelection }

/- ---------------------------------------------------------------------------
The tasks command (get.py lines 264 to 333).
--------------------------------------------------------------------------- -/

/-- Default of the tasks `--limit` option (`default=10` on line 269). -/
def tasksLimitDefault : Int := 10

/-- The raw `where` dictionary of the tasks query (lines 281 to 290). -/
def tasksWhereRaw (name flow_name : Option String) (flow_version : Option Int)
    (project : Option String) : GQL :=
  GQL.obj [("_and", GQL.obj
    [("name", GQL.obj [("_eq", optStr name)]),
     ("flow", GQL.obj
       [("name", GQL.obj [("_eq", optStr flow_name)]),
        ("project", GQL.obj [("name", GQL.obj [("_eq", optStr project)])]),
        ("version", GQL.obj [("_eq", optInt flow_version)])])])]

/-- The raw argument dictionary of the tasks query (lines 281 to 292). -/
def tasksArgsRaw (name flow_name : Option String) (flow_version : Option Int)
    (project : Option String) (limit : Int) : GQL :=
  GQL.obj
    [("where", tasksWhereRaw name flow_name flow_version project),
     ("limit", GQL.int limit),
     ("order_by", GQL.obj [("created", GQL.enum "desc")])]

/-- The selection tree of the tasks query (lines 294 to 300). -/
def tasksSelection : List Sel :=
  [Sel.leaf "name", Sel.leaf "created",
   Sel.node "flow" [Sel.leaf "name", Sel.leaf "version"],
   Sel.leaf "mapped", Sel.leaf "type"]

/-- The constructed tasks query request (lines 276 to 302). -/
def tasksQuery (name flow_name : Option String) (flow_version : Option Int)
    (project : Option String) (limit : Int) : QueryRequest :=
  { entity := "task"
    args := elide (tasksArgsRaw name flow_name flow_version project limit)
    selection := tasksSelection }

/- ---------------------------------------------------------------------------
Rendering: response records, row projection and the table collaborator.
--------------------------------------------------------------------------- -/

/-- A table cell: the Python values appended to an output row are strings,
integers, booleans, or `None`. -/
inductive Cell where
  | null : Cell
  | str : String → Cell
  | int : Int → Cell
  | bool : Bool → Cell
deriving DecidableEq, Repr

/-- The external timestamp formatters consumed by the handlers:
`diffForHumans s` embeds `pendulum.parse(s).diff_for_humans()` and
`toDatetimeString s` embeds `pendulum.parse(s).to_datetime_string()`.  Both are
collaborators outside this module, so the handlers are parametrised by them. -/
structure Externals where
  diffForHumans : String → String
  toDatetimeString : String → String

/-- A flow response record, as navigated on lines 104 to 107. -/
structure FlowRecord where
  name : String
  version : Int
  projectName : String
  created : String

/-- A project response record, as navigated on lines 160 to 163;
`flowCount` is `item.flows_aggregate.aggregate.count` and the description is
passed through unchanged (it may be null). -/
structure ProjectRecord where
  name : String
  flowCount : Int
  created : String
  description : Cell

/-- A flow-run response record, as navigated on lines 237 to 249; the start
time is nullable and the duration is passed through unchanged. -/
structure FlowRunRecord where
  name : String
  flowName : String
  state : String
  created : String
  start_time : Option String
  duration : Cell

/-- A task response record, as navigated on lines 316 to 321. -/
structure TaskRecord where
  name : String
  flowName : String
  flowVersion : Int
  created : String
  mapped : Bool
  type : String

/-- One output row of the flows table (lines 102 to 109). -/
def flowsRow (ext : Externals) (item : FlowRecord) : List Cell :=
  [Cell.str item.name, Cell.int item.version, Cell.str item.projectName,
   Cell.str (ext.diffForHumans item.created)]

/-- The flows output list (lines 100 to 109). -/
def flowsOutput (ext : Externals) (data : List FlowRecord) : List (List Cell) :=
  data.map (flowsRow ext)

/-- One output row of the projects table (lines 158 to 165). -/
def projectsRow (ext : Externals) (item : ProjectRecord) : List Cell :=
  [Cell.str item.name, Cell.int item.flowCount,
   Cell.str (ext.diffForHumans item.created), item.description]

/-- The projects output list (lines 156 to 165). -/
def projectsOutput (ext : Externals) (data : List ProjectRecord) : List (List Cell) :=
  data.map (projectsRow ext)

/-- One output row of the flow-runs table (lines 237 to 251).  The source
computes the start-time cell with a Python truthiness test,
`... if item.start_time else None`, so both a null and an empty-string start
time yield a `None` cell; only a non-empty start time is converted. -/
def flowRunsRow (ext : Externals) (item : FlowRunRecord) : List Cell :=
  [Cell.str item.name, Cell.str item.flowName, Cell.str item.state,
   Cell.str (ext.diffForHumans item.created),
   (match item.start_time with
    | some s => if s = "" then Cell.null else Cell.str (ext.toDatetimeString s)
    | none => Cell.null),
   item.duration]

/-- The flow-runs output list (lines 235 to 251). -/
def flowRunsOutput (ext : Externals) (data : List FlowRunRecord) : List (List Cell) :=
  data.map (flowRunsRow ext)

/-- One output row of the tasks table (lines 314 to 323). -/
def tasksRow (ext : Externals) (item : TaskRecord) : List Cell :=
  [Cell.str item.name, Cell.str item.flowName, Cell.int item.flowVersion,
   Cell.str (ext.diffForHumans item.created), Cell.bool item.mapped,
   Cell.str item.type]

/-- The tasks output list (lines 312 to 323). -/
def tasksOutput (ext : Externals) (data : List TaskRecord) : List (List Cell) :=
  data.map (tasksRow ext)

/-- The fixed flows table headers (line 114). -/
def flowsHeaders : List String := ["NAME", "VERSION", "PROJECT NAME", "AGE"]

/-- The fixed projects table headers (line 170). -/
def projectsHeaders : List String := ["NAME", "FLOW COUNT", "AGE", "DESCRIPTION"]

/-- The fixed flow-runs table headers (line 256). -/
def flowRunsHeaders : List String :=
  ["NAME", "FLOW NAME", "STATE", "AGE", "START TIME", "DURATION"]

/-- The fixed tasks table headers (line 328). -/
def tasksHeaders : List String :=
  ["NAME", "FLOW NAME", "FLOW VERSION", "AGE", "MAPPED", "TYPE"]

/-- Modelled from the spec: the table renderer `tabulate` is an external
collaborator; per the spec it renders "a fixed header row" followed by the
data rows as a plain borderless table, and with zero records it "must still
print the header row with no data rows".  We model its output as the list of
table lines: the header line first, then one line per row. -/
def tabulateLines (rows : List (List Cell)) (headers : List String) :
    List (List Cell) :=
  (headers.map Cell.str) :: rows

/- ---------------------------------------------------------------------------
The handlers as action traces.
--------------------------------------------------------------------------- -/

/-- An observable action of a handler: handing the request to the playground
collaborator, submitting it over the network via the client collaborator, or
printing a table via `click.echo`. -/
inductive CliAction where
  | openPlayground : QueryRequest → CliAction
  | graphql : QueryRequest → CliAction
  | echo : List (List Cell) → CliAction

/-- The flows handler (lines 55 to 119) as a trace of actions; `response`
stands for the record list the client returns in network mode. -/
def flowsHandler (ext : Externals) (name : Option String) (version : Option Int)
    (project : Option String) (limit : Int) (all_versions playground : Bool)
    (response : List FlowRecord) : List CliAction :=
  let query := flowsQuery name version project limit all_versions
  if playground then [CliAction.openPlayground query]
  else
    [CliAction.graphql query,
     CliAction.echo (tabulateLines (flowsOutput ext response) flowsHeaders)]

/-- The projects handler (lines 125 to 175) as a trace of actions. -/
def projectsHandler (ext : Externals) (name : Option String) (playground : Bool)
    (response : List ProjectRecord) : List CliAction :=
  let query := projectsQuery name
  if playground then [CliAction.openPlayground query]
  else
    [CliAction.graphql query,
     CliAction.echo (tabulateLines (projectsOutput ext response) projectsHeaders)]

/-- The flow-runs handler (lines 184 to 261) as a trace of actions. -/
def flowRunsHandler (ext : Externals) (limit : Int) (flow project : Option String)
    (started playground : Bool) (response : List FlowRunRecord) : List CliAction :=
  let query := flowRunsQuery limit flow project started
  if playground then [CliAction.openPlayground query]
  else
    [CliAction.graphql query,
     CliAction.echo (tabulateLines (flowRunsOutput ext response) flowRunsHeaders)]

/-- The tasks handler (lines 271 to 333) as a trace of actions. -/
def tasksHandler (ext : Externals) (name flow_name : Option String)
    (flow_version : Option Int) (project : Option String) (limit : Int)
    (playground : Bool) (response : List TaskRecord) : List CliAction :=
  let query := tasksQuery name flow_name flow_version project limit
  if playground then [CliAction.openPlayground query]
  else
    [CliAction.graphql query,
     CliAction.echo (tabulateLines (tasksOutput ext response) tasksHeaders)]

/- ---------------------------------------------------------------------------
Theorems.
--------------------------------------------------------------------------- -/

/-- Claim C1: for every command and every optional filter option (name,
version, project, flow, flow-name, flow-version), if the option is not
supplied then the clause for that filter is absent from the `where` tree of
the constructed request: looking up the clause at its path yields `none`, and
when every filter of a command is unset the whole `where` argument is elided
(for flow-runs in unstarted mode; the started mode keeps its fixed non-null
clause). -/
theorem unset_filter_clause_elided :
    (∀ version project limit a,
      getPath (flowsQuery none version project limit a).args
        ["where", "_and", "name"] = none)
    ∧ (∀ name project limit a,
      getPath (flowsQuery name none project limit a).args
        ["where", "_and", "version"] = none)
    ∧ (∀ name version limit a,
      getPath (flowsQuery name version none limit a).args
        ["where", "_and", "project"] = none)
    ∧ getPath (projectsQuery none).args ["where", "_and", "name"] = none
    ∧ (∀ project limit,
      getPath (flowRunsQuery limit none project true).args
        ["where", "_and", "flow", "_and", "name"] = none)
    ∧ (∀ project limit,
      getPath (flowRunsQuery limit none project false).args
        ["where", "flow", "_and", "name"] = none)
    ∧ (∀ flow limit,
      getPath (flowRunsQuery limit flow none true).args
        ["where", "_and", "flow", "_and", "project"] = none)
    ∧ (∀ flow limit,
      getPath (flowRunsQuery limit flow none false).args
        ["where", "flow", "_and", "project"] = none)
    ∧ (∀ flow_name flow_version project limit,
      getPath (tasksQuery none flow_name flow_version project limit).args
        ["where", "_and", "name"] = none)
    ∧ (∀ name flow_version project limit,
      getPath (tasksQuery name none flow_version project limit).args
        ["where", "_and", "flow", "name"] = none)
    ∧ (∀ name flow_name project limit,
      getPath (tasksQuery name flow_name none project limit).args
        ["where", "_and", "flow", "version"] = none)
    ∧ (∀ name flow_name flow_version limit,
      getPath (tasksQuery name flow_name flow_version none limit).args
        ["where", "_and", "flow", "project"] = none)
    ∧ (∀ limit a, getPath (flowsQuery none none none limit a).args ["where"] = none)
    ∧ getPath (projectsQuery none).args ["where"] = none
    ∧ (∀ limit, getPath (flowRunsQuery limit none none false).args ["where"] = none)
    ∧ (∀ limit, getPath (tasksQuery none none none none limit).args ["where"] = none) := by
  refine ⟨?_, ?_, ?_, ?_, ?_, ?_, ?_, ?_, ?_, ?_, ?_, ?_, ?_, ?_, ?_, ?_⟩
  · intro v p l a; cases v <;> cases p <;> cases a <;> rfl
  · intro n p l a; cases n <;> cases p <;> cases a <;> rfl
  · intro n v l a; cases n <;> cases v <;> cases a <;> rfl
  · rfl
  · intro p l; cases p <;> rfl
  · intro p l; cases p <;> rfl
  · intro f l; cases f <;> rfl
  · intro f l; cases f <;> rfl
  · intro fn fv p l; cases fn <;> cases fv <;> cases p <;> rfl
  · intro n fv p l; cases n <;> cases fv <;> cases p <;> rfl
  · intro n fn p l; cases n <;> cases fn <;> cases p <;> rfl
  · intro n fn fv l; cases n <;> cases fn <;> cases fv <;> rfl
  · intro l a; cases a <;> rfl
  · rfl
  · intro l; rfl
  · intro l; rfl

/-- Claim C2: in the flows command, without `--all-versions` the request
carries a `distinct_on` argument keyed by name, and with `--all-versions` the
request carries no `distinct_on` argument anywhere. -/
theorem flows_distinct_on_toggle :
    (∀ name version project limit,
      getPath (flowsQuery name version project limit false).args ["distinct_on"]
        = some (GQL.enum "name"))
    ∧ (∀ name version project limit,
      getPath (flowsQuery name version project limit true).args ["distinct_on"] = none
      ∧ hasKey (flowsQuery name version project limit true).args "distinct_on" = false) := by
  constructor
  · intro n v p l; cases n <;> cases v <;> cases p <;> rfl
  · intro n v p l
    constructor
    · cases n <;> cases v <;> cases p <;> rfl
    · cases n <;> cases v <;> cases p <;> rfl

/-- Claim C3: in the flow-runs command, with `--started` the `where` tree
carries a `start_time` non-null clause and the order key is start time
descending; without it the `where` tree has no `start_time` key anywhere and
the order key is creation time descending. -/
theorem flow_runs_started_mode :
    (∀ limit flow project,
      getPath (flowRunsQuery limit flow project true).args
          ["where", "_and", "start_time"]
        = some (GQL.obj [("_is_null", GQL.bool false)])
      ∧ getPath (flowRunsQuery limit flow project true).args ["order_by"]
        = some (GQL.obj [("start_time", GQL.enum "desc")]))
    ∧ (∀ limit flow project,
      hasKey (whereTree (flowRunsQuery limit flow project false)) "start_time" = false
      ∧ getPath (flowRunsQuery limit flow project false).args ["order_by"]
        = some (GQL.obj [("created", GQL.enum "desc")])) := by
  constructor
  · intro l f p
    constructor
    · cases f <;> cases p <;> rfl
    · cases f <;> cases p <;> rfl
  · intro l f p
    constructor
    · cases f <;> cases p <;> rfl
    · cases f <;> cases p <;> rfl

/-- Claim C4: on every command, with the `--playground` flag the handler only
hands the constructed request, unmodified, to the playground collaborator: the
trace is a single playground action, with no network call and no table,
whatever the client would have returned. -/
theorem playground_short_circuits :
    (∀ ext name version project limit a response,
      flowsHandler ext name version project limit a true response
        = [CliAction.openPlayground (flowsQuery name version project limit a)])
    ∧ (∀ ext name response,
      projectsHandler ext name true response
        = [CliAction.openPlayground (projectsQuery name)])
    ∧ (∀ ext limit flow project started response,
      flowRunsHandler ext limit flow project started true response
        = [CliAction.openPlayground (flowRunsQuery limit flow project started)])
    ∧ (∀ ext name flow_name flow_version project limit response,
      tasksHandler ext name flow_name flow_version project limit true response
        = [CliAction.openPlayground
            (tasksQuery name flow_name flow_version project limit)]) := by
  refine ⟨?_, ?_, ?_, ?_⟩
  · intro ext n v p l a r; rfl
  · intro ext n r; rfl
  · intro ext l f p s r; rfl
  · intro ext n fn fv p l r; rfl

/-- Claim C5: on every command, a response with zero records makes the
network-mode handler print exactly the fixed header row and no data rows. -/
theorem empty_response_renders_header_only :
    (∀ ext name version project limit a,
      flowsHandler ext name version project limit a false []
        = [CliAction.graphql (flowsQuery name version project limit a),
           CliAction.echo [[Cell.str "NAME", Cell.str "VERSION",
             Cell.str "PROJECT NAME", Cell.str "AGE"]]])
    ∧ (∀ ext name,
      projectsHandler ext name false []
        = [CliAction.graphql (projectsQuery name),
           CliAction.echo [[Cell.str "NAME", Cell.str "FLOW COUNT",
             Cell.str "AGE", Cell.str "DESCRIPTION"]]])
    ∧ (∀ ext limit flow project started,
      flowRunsHandler ext limit flow project started false []
        = [CliAction.graphql (flowRunsQuery limit flow project started),
           CliAction.echo [[Cell.str "NAME", Cell.str "FLOW NAME", Cell.str "STATE",
             Cell.str "AGE", Cell.str "START TIME", Cell.str "DURATION"]]])
    ∧ (∀ ext name flow_name flow_version project limit,
      tasksHandler ext name flow_name flow_version project limit false []
        = [CliAction.graphql (tasksQuery name flow_name flow_version project limit),
           CliAction.echo [[Cell.str "NAME", Cell.str "FLOW NAME",
             Cell.str "FLOW VERSION", Cell.str "AGE", Cell.str "MAPPED",
             Cell.str "TYPE"]]]) := by
  refine ⟨?_, ?_, ?_, ?_⟩
  · intro ext n v p l a; rfl
  · intro ext n; rfl
  · intro ext l f p s; rfl
  · intro ext n fn fv p l; rfl

/-- Counterexample to claim C6 as stated: a flow-run record whose start time
is the non-null empty string is rendered as a null cell, not as the absolute
date-time string of the external formatter (which here returns "ABSOLUTE" on
every input), because the source guards the conversion with a Python
truthiness test rather than a null test. -/
theorem flow_runs_empty_start_time_not_converted :
    (flowRunsRow ⟨fun _ => "3 days ago", fun _ => "ABSOLUTE"⟩
        ⟨"run", "flow", "Success", "created-ts", some "", Cell.null⟩).get? 4
      = some Cell.null
    ∧ ((⟨"run", "flow", "Success", "created-ts", some "", Cell.null⟩ :
        FlowRunRecord).start_time ≠ none)
    ∧ Cell.null ≠ Cell.str "ABSOLUTE" := by
  refine ⟨rfl, ?_, ?_⟩
  · intro h; cases h
  · intro h; cases h

/-- Claim C6 (amended): in the flow-runs render step the creation timestamp is
rendered through the relative formatter, a non-null and non-empty start time
is rendered through the absolute formatter, and a null or empty start time
yields a null cell to which no conversion is applied: the row does not depend
on the absolute formatter at all in that case. -/
theorem flow_runs_timestamp_rendering (ext : Externals) (item : FlowRunRecord) :
    (flowRunsRow ext item).get? 3 = some (Cell.str (ext.diffForHumans item.created))
    ∧ (∀ s, item.start_time = some s → s ≠ "" →
        (flowRunsRow ext item).get? 4 = some (Cell.str (ext.toDatetimeString s)))
    ∧ (item.start_time = none → (flowRunsRow ext item).get? 4 = some Cell.null)
    ∧ (item.start_time = some "" → (flowRunsRow ext item).get? 4 = some Cell.null)
    ∧ ((item.start_time = none ∨ item.start_time = some "") →
        ∀ ext2 : Externals, ext2.diffForHumans = ext.diffForHumans →
          flowRunsRow ext2 item = flowRunsRow ext item) := by
  obtain ⟨n, fn, st, cr, stt, dur⟩ := item
  refine ⟨rfl, ?_, ?_, ?_, ?_⟩
  · intro s hs hne
    cases hs
    simp [flowRunsRow, hne]
  · intro h; cases h; rfl
  · intro h; cases h; rfl
  · intro h ext2 hd
    rcases h with h | h <;> cases h <;> simp [flowRunsRow, hd]

/-- Witness for C6 (amended) at a concrete formatter pair and record with a
non-empty start time. -/
theorem flow_runs_timestamp_rendering_witness :
    (flowRunsRow ⟨fun _ => "rel", fun s => s ++ "-abs"⟩
        ⟨"run", "flow", "Success", "created-ts", some "2019-01-01", Cell.null⟩).get? 4
      = some (Cell.str "2019-01-01-abs") := by
  have h := flow_runs_timestamp_rendering
    ⟨fun _ => "rel", fun s => s ++ "-abs"⟩
    ⟨"run", "flow", "Success", "created-ts", some "2019-01-01", Cell.null⟩
  exact h.2.1 "2019-01-01" rfl (by decide)

/-- Counterexample to claim C7 as stated: the projects builder takes no limit
parameter and its constructed request carries no limit argument anywhere, so
the projects query does not bound its result count. -/
theorem projects_query_has_no_limit :
    hasKey (projectsQuery (some "My-Project")).args "limit" = false
    ∧ hasKey (projectsQuery none).args "limit" = false := by
  exact ⟨rfl, rfl⟩

/-- Claim C7 (amended): the flows, flow-runs and tasks builders accept an
integer limit parameter whose CLI default is 10 and place that value as the
limit argument of the constructed request; the projects builder has no limit
parameter and its request carries no limit argument. -/
theorem limit_bounds_request :
    flowsLimitDefault = 10 ∧ flowRunsLimitDefault = 10 ∧ tasksLimitDefault = 10
    ∧ (∀ name version project limit a,
      getPath (flowsQuery name version project limit a).args ["limit"]
        = some (GQL.int limit))
    ∧ (∀ limit flow project started,
      getPath (flowRunsQuery limit flow project started).args ["limit"]
        = some (GQL.int limit))
    ∧ (∀ name flow_name flow_version project limit,
      getPath (tasksQuery name flow_name flow_version project limit).args ["limit"]
        = some (GQL.int limit))
    ∧ (∀ name, hasKey (projectsQuery name).args "limit" = false) := by
  refine ⟨rfl, rfl, rfl, ?_, ?_, ?_, ?_⟩
  · intro n v p l a; cases n <;> cases v <;> cases p <;> cases a <;> rfl
  · intro l f p s; cases f <;> cases p <;> cases s <;> rfl
  · intro n fn fv p l; cases n <;> cases fn <;> cases fv <;> cases p <;> rfl
  · intro n; cases n <;> rfl

/-- Claim C8: each builder emits one fixed, option-independent ordering: flows
by name ascending then version descending, projects by name ascending,
flow-runs by creation time descending (start time descending in started mode),
tasks by creation time descending. -/
theorem fixed_ordering :
    (∀ name version project limit a,
      getPath (flowsQuery name version project limit a).args ["order_by"]
        = some (GQL.obj [("name", GQL.enum "asc"), ("version", GQL.enum "desc")]))
    ∧ (∀ name,
      getPath (projectsQuery name).args ["order_by"]
        = some (GQL.obj [("name", GQL.enum "asc")]))
    ∧ (∀ limit flow project,
      getPath (flowRunsQuery limit flow project false).args ["order_by"]
        = some (GQL.obj [("created", GQL.enum "desc")]))
    ∧ (∀ limit flow project,
      getPath (flowRunsQuery limit flow project true).args ["order_by"]
        = some (GQL.obj [("start_time", GQL.enum "desc")]))
    ∧ (∀ name flow_name flow_version project limit,
      getPath (tasksQuery name flow_name flow_version project limit).args ["order_by"]
        = some (GQL.obj [("created", GQL.enum "desc")])) := by
  refine ⟨?_, ?_, ?_, ?_, ?_⟩
  · intro n v p l a; cases n <;> cases v <;> cases p <;> cases a <;> rfl
  · intro n; cases n <;> rfl
  · intro l f p; cases f <;> cases p <;> rfl
  · intro l f p; cases f <;> cases p <;> rfl
  · intro n fn fv p l; cases n <;> cases fn <;> cases fv <;> cases p <;> rfl

/-- Claim C9: in the flows render step, a record with name My-Flow, version 3,
project name My-Project, and a creation timestamp that the relative formatter
renders as "3 days ago" produces exactly one row, read in the fixed header
order NAME, VERSION, PROJECT NAME, AGE. -/
theorem flows_scenario_row (ext : Externals) (ts : String)
    (h : ext.diffForHumans ts = "3 days ago") :
    flowsOutput ext [⟨"My-Flow", 3, "My-Project", ts⟩]
      = [[Cell.str "My-Flow", Cell.int 3, Cell.str "My-Project",
          Cell.str "3 days ago"]]
    ∧ flowsHeaders = ["NAME", "VERSION", "PROJECT NAME", "AGE"] := by
  refine ⟨?_, rfl⟩
  simp [flowsOutput, flowsRow, h]

/-- Witness for C9 at a concrete formatter and timestamp. -/
theorem flows_scenario_row_witness :
    flowsOutput ⟨fun _ => "3 days ago", fun s => s⟩
        [⟨"My-Flow", 3, "My-Project", "2019-01-01T00:00:00"⟩]
      = [[Cell.str "My-Flow", Cell.int 3, Cell.str "My-Project",
          Cell.str "3 days ago"]] :=
  (flows_scenario_row ⟨fun _ => "3 days ago", fun s => s⟩
    "2019-01-01T00:00:00" rfl).1

/-- Claim C10: each command requests one fixed field-selection tree, identical
for every value of the supplied options, which influence only the arguments of
the request. -/
theorem selection_tree_constant :
    (∀ name version project limit a,
      (flowsQuery name version project limit a).selection
        = [Sel.leaf "name", Sel.leaf "version",
           Sel.node "project" [Sel.leaf "name"], Sel.leaf "created"])
    ∧ (∀ name,
      (projectsQuery name).selection
        = [Sel.leaf "name", Sel.leaf "created", Sel.leaf "description",
           Sel.withArgsSel "flows_aggregate"
             (GQL.obj [("distinct_on", GQL.enum "name")])
             [Sel.node "aggregate" [Sel.leaf "count"]]])
    ∧ (∀ limit flow project started,
      (flowRunsQuery limit flow project started).selection
        = [Sel.node "flow" [Sel.leaf "name"], Sel.leaf "created", Sel.leaf "state",
           Sel.leaf "name", Sel.leaf "duration", Sel.leaf "start_time"])
    ∧ (∀ name flow_name flow_version project limit,
      (tasksQuery name flow_name flow_version project limit).selection
        = [Sel.leaf "name", Sel.leaf "created",
           Sel.node "flow" [Sel.leaf "name", Sel.leaf "version"],
           Sel.leaf "mapped", Sel.leaf "type"]) := by
  refine ⟨?_, ?_, ?_, ?_⟩
  · intro n v p l a; rfl
  · intro n; rfl
  · intro l f p s; rfl
  · intro n fn fv p l; rfl
